import Mathlib

/-!
Shallow embedding of `server_session_media.go` (the per-media transport layer
of an RTSP server session, package gortsplib).  Pure data flow is modelled by
explicit state passing; the side effects of the Go code (decode-error
signalling, per-format dispatch, the user RTCP callback, network writes,
listener registration) are recorded as explicit event/action traces.
External collaborators (the pion RTP/RTCP unmarshallers, the per-format
component, the shared UDP listeners, the write queue) are modelled through
their interfaces, as the source file uses them.
-/

namespace SessionMedia

/-- RTP packet header, as far as this component inspects it:
`rtp.Header` with its `Version` and `PayloadType` fields. -/
structure RTPHeader where
  version : Nat
  payloadType : Nat
  deriving DecidableEq

/-- Structured RTP packet produced by `rtp.Packet.Unmarshal`. -/
structure RTPPacket where
  header : RTPHeader
  payload : List Nat
  deriving DecidableEq

/-- Structured RTCP packet produced by `rtcp.Unmarshal`.  The component only
distinguishes Sender Reports (`*rtcp.SenderReport`, carrying an SSRC) and
Receiver Reports (used for the firewall-opening packet); every other RTCP
packet kind is opaque to it. -/
inductive RTCPPacket where
  | senderReport (ssrc : Nat)
  | receiverReport
  | other (tag : Nat)
  deriving DecidableEq

/-- The decode errors signalled through `sm.ss.onDecodeError`, following the
`liberrors` values used by the source. -/
inductive DecodeError where
  | rtpPacketTooBigUDP
  | rtcpPacketTooBigUDP
  | rtcpPacketTooBig (l : Nat) (max : Nat)
  | rtpPacketUnknownPayloadType (payloadType : Nat)
  | rtpUnmarshalError
  | rtcpUnmarshalError
  deriving DecidableEq

/-- The per-format component (`serverSessionFormat`), modelled through the
interface this file uses: its payload type and its RTCP receiver's
`SenderSSRC() (ssrc, ok)`, modelled as an `Option`. -/
structure ServerSessionFormat where
  payloadType : Nat
  senderSSRC : Option Nat
  deriving DecidableEq

/-- The fields of `serverSessionMedia` that the inbound routing logic reads:
the `formats` map from payload type to per-format component, modelled as an
association list. -/
structure serverSessionMedia where
  formats : List (Nat × ServerSessionFormat)
  deriving DecidableEq

/-- The owning session state mutated by this file: the two byte counters
(`bytesSent`, `bytesReceived`) and the last-UDP-activity timestamp
(`udpLastPacketTime`, a Unix time). -/
structure ServerSession where
  bytesSent : Nat
  bytesReceived : Nat
  udpLastPacketTime : Int
  deriving DecidableEq

/-- External environment of a read handler: the configured
`udpMaxPayloadSize` ceiling, the pion unmarshallers (external collaborators,
modelled as parameters returning `none` on parse failure), and the value
`sm.ss.s.timeNow()` returns during the handler. -/
structure Env where
  udpMaxPayloadSize : Nat
  rtpUnmarshal : List Nat → Option RTPPacket
  rtcpUnmarshal : List Nat → Option (List RTCPPacket)
  timeNow : Int

/-- Observable side effects of a read handler, in program order:
a decode-error signal, a dispatch to a per-format component
(`forma.readRTPUDP(pkt, now)` / `forma.readRTPTCP(pkt)`), a sender-report
feed (`format.rtcpReceiver.ProcessSenderReport(sr, now)`), or an invocation
of the user callback `sm.onPacketRTCP(pkt)`. -/
inductive Event where
  | decodeError (e : DecodeError)
  | readRTPUDP (f : ServerSessionFormat) (pkt : RTPPacket) (now : Int)
  | readRTPTCP (f : ServerSessionFormat) (pkt : RTPPacket)
  | processSenderReport (f : ServerSessionFormat) (ssrc : Nat) (now : Int)
  | onPacketRTCP (pkt : RTCPPacket)
  deriving DecidableEq

/-- Go map indexing `sm.formats[pkt.PayloadType]` on the association list. -/
def lookupFormat : List (Nat × ServerSessionFormat) → Nat → Option ServerSessionFormat
  | [], _ => none
  | (k, f) :: rest, pt => if k = pt then some f else lookupFormat rest pt

/-- Linear scan of `findFormatWithSSRC`: the first format whose RTCP receiver
reports `SenderSSRC() = (ssrc, true)`. -/
def findFormatWithSSRCAux : List (Nat × ServerSessionFormat) → Nat → Option ServerSessionFormat
  | [], _ => none
  | (_, f) :: rest, ssrc =>
    match f.senderSSRC with
    | some tssrc => if tssrc = ssrc then some f else findFormatWithSSRCAux rest ssrc
    | none => findFormatWithSSRCAux rest ssrc

/-- `func (sm *serverSessionMedia) findFormatWithSSRC(ssrc uint32)`. -/
def findFormatWithSSRC (sm : serverSessionMedia) (ssrc : Nat) : Option ServerSessionFormat :=
  findFormatWithSSRCAux sm.formats ssrc

/-- Body of the RTCP loop in the Record read paths: for each decoded packet,
if it is a Sender Report, correlate by SSRC and feed the matching format's
receiver (if any); then invoke `onPacketRTCP` once. -/
def rtcpRecordPacketEvents (sm : serverSessionMedia) (now : Int) (pkt : RTCPPacket) :
    List Event :=
  (match pkt with
   | RTCPPacket.senderReport ssrc =>
     match findFormatWithSSRC sm ssrc with
     | some format => [Event.processSenderReport format ssrc now]
     | none => []
   | _ => []) ++ [Event.onPacketRTCP pkt]

/-- The `for _, pkt := range packets` loop of the Record RTCP read paths. -/
def rtcpRecordLoop (sm : serverSessionMedia) (now : Int) : List RTCPPacket → List Event
  | [] => []
  | pkt :: rest => rtcpRecordPacketEvents sm now pkt ++ rtcpRecordLoop sm now rest

/-- `func (sm *serverSessionMedia) readRTCPUDPPlay(payload []byte)`. -/
def readRTCPUDPPlay (env : Env) (_sm : serverSessionMedia) (ss : ServerSession)
    (payload : List Nat) : ServerSession × List Event :=
  let plen := payload.length
  let ss1 := { ss with bytesReceived := ss.bytesReceived + plen }
  if plen = env.udpMaxPayloadSize + 1 then
    (ss1, [Event.decodeError DecodeError.rtcpPacketTooBigUDP])
  else
    match env.rtcpUnmarshal payload with
    | none => (ss1, [Event.decodeError DecodeError.rtcpUnmarshalError])
    | some packets =>
      let now := env.timeNow
      let ss2 := { ss1 with udpLastPacketTime := now }
      (ss2, packets.map Event.onPacketRTCP)

/-- `func (sm *serverSessionMedia) readRTPUDPRecord(payload []byte)`.
Note the source looks up `sm.formats[pkt.PayloadType]` and returns on a miss
before it stores `udpLastPacketTime`. -/
def readRTPUDPRecord (env : Env) (sm : serverSessionMedia) (ss : ServerSession)
    (payload : List Nat) : ServerSession × List Event :=
  let plen := payload.length
  let ss1 := { ss with bytesReceived := ss.bytesReceived + plen }
  if plen = env.udpMaxPayloadSize + 1 then
    (ss1, [Event.decodeError DecodeError.rtpPacketTooBigUDP])
  else
    match env.rtpUnmarshal payload with
    | none => (ss1, [Event.decodeError DecodeError.rtpUnmarshalError])
    | some pkt =>
      match lookupFormat sm.formats pkt.header.payloadType with
      | none =>
        (ss1, [Event.decodeError (DecodeError.rtpPacketUnknownPayloadType pkt.header.payloadType)])
      | some forma =>
        let now := env.timeNow
        let ss2 := { ss1 with udpLastPacketTime := now }
        (ss2, [Event.readRTPUDP forma pkt now])

/-- `func (sm *serverSessionMedia) readRTCPUDPRecord(payload []byte)`. -/
def readRTCPUDPRecord (env : Env) (sm : serverSessionMedia) (ss : ServerSession)
    (payload : List Nat) : ServerSession × List Event :=
  let plen := payload.length
  let ss1 := { ss with bytesReceived := ss.bytesReceived + plen }
  if plen = env.udpMaxPayloadSize + 1 then
    (ss1, [Event.decodeError DecodeError.rtcpPacketTooBigUDP])
  else
    match env.rtcpUnmarshal payload with
    | none => (ss1, [Event.decodeError DecodeError.rtcpUnmarshalError])
    | some packets =>
      let now := env.timeNow
      let ss2 := { ss1 with udpLastPacketTime := now }
      (ss2, rtcpRecordLoop sm now packets)

/-- `func (sm *serverSessionMedia) readRTPTCPPlay(_ []byte)`: empty body. -/
def readRTPTCPPlay (_env : Env) (_sm : serverSessionMedia) (ss : ServerSession)
    (_payload : List Nat) : ServerSession × List Event :=
  (ss, [])

/-- `func (sm *serverSessionMedia) readRTCPTCPPlay(payload []byte)`. -/
def readRTCPTCPPlay (env : Env) (_sm : serverSessionMedia) (ss : ServerSession)
    (payload : List Nat) : ServerSession × List Event :=
  if payload.length > env.udpMaxPayloadSize then
    (ss, [Event.decodeError (DecodeError.rtcpPacketTooBig payload.length env.udpMaxPayloadSize)])
  else
    match env.rtcpUnmarshal payload with
    | none => (ss, [Event.decodeError DecodeError.rtcpUnmarshalError])
    | some packets => (ss, packets.map Event.onPacketRTCP)

/-- `func (sm *serverSessionMedia) readRTPTCPRecord(payload []byte)`. -/
def readRTPTCPRecord (env : Env) (sm : serverSessionMedia) (ss : ServerSession)
    (payload : List Nat) : ServerSession × List Event :=
  match env.rtpUnmarshal payload with
  | none => (ss, [Event.decodeError DecodeError.rtpUnmarshalError])
  | some pkt =>
    match lookupFormat sm.formats pkt.header.payloadType with
    | none =>
      (ss, [Event.decodeError (DecodeError.rtpPacketUnknownPayloadType pkt.header.payloadType)])
    | some forma => (ss, [Event.readRTPTCP forma pkt])

/-- `func (sm *serverSessionMedia) readRTCPTCPRecord(payload []byte)`.
It calls `timeNow()` for the sender-report feed but does not store
`udpLastPacketTime`. -/
def readRTCPTCPRecord (env : Env) (sm : serverSessionMedia) (ss : ServerSession)
    (payload : List Nat) : ServerSession × List Event :=
  if payload.length > env.udpMaxPayloadSize then
    (ss, [Event.decodeError (DecodeError.rtcpPacketTooBig payload.length env.udpMaxPayloadSize)])
  else
    match env.rtcpUnmarshal payload with
    | none => (ss, [Event.decodeError DecodeError.rtcpUnmarshalError])
    | some packets =>
      let now := env.timeNow
      (ss, rtcpRecordLoop sm now packets)

/-! ## Outbound write path -/

/-- A task enqueued on the session write queue.  The Go code enqueues a
closure capturing the payload; which `writePacket…InQueue` variant the
closure invokes is fixed by the transport selected at `start()`, so a task is
fully described by the payload and the RTP/RTCP distinction. -/
inductive QueuedTask where
  | rtpTask (payload : List Nat)
  | rtcpTask (payload : List Nat)
  deriving DecidableEq

/-- Modelled from the spec: the session's bounded single-consumer write queue
(`sm.ss.writer`, defined outside this file).  `push(task) -> bool` appends in
FIFO order and returns false when the queue is full. -/
structure Writer where
  capacity : Nat
  tasks : List QueuedTask
  deriving DecidableEq

/-- Modelled from the spec: `push` accepts the task iff the bounded queue has
room, returning false (and leaving the queue unchanged) when saturated. -/
def Writer.push (w : Writer) (t : QueuedTask) : Writer × Bool :=
  if w.tasks.length < w.capacity then
    ({ w with tasks := w.tasks ++ [t] }, true)
  else (w, false)

/-- `liberrors.ErrServerWriteQueueFull`. -/
inductive WriteError where
  | serverWriteQueueFull
  deriving DecidableEq

/-- State touched by the outbound write operations: the owning session's
counters and the write queue. -/
structure WriteState where
  ss : ServerSession
  writer : Writer
  deriving DecidableEq

/-- `func (sm *serverSessionMedia) writePacketRTP(payload []byte) error`:
push the queued closure; on a full queue return `ErrServerWriteQueueFull`. -/
def writePacketRTP (st : WriteState) (payload : List Nat) : WriteState × Option WriteError :=
  let pushed := st.writer.push (QueuedTask.rtpTask payload)
  if pushed.2 then ({ st with writer := pushed.1 }, none)
  else (st, some WriteError.serverWriteQueueFull)

/-- `func (sm *serverSessionMedia) writePacketRTCP(payload []byte) error`. -/
def writePacketRTCP (st : WriteState) (payload : List Nat) : WriteState × Option WriteError :=
  let pushed := st.writer.push (QueuedTask.rtcpTask payload)
  if pushed.2 then ({ st with writer := pushed.1 }, none)
  else (st, some WriteError.serverWriteQueueFull)

/-- A network send performed by a queued write task (UDP listener `write`
toward the stored remote address). -/
inductive NetWrite where
  | udpRTP (payload : List Nat)
  | udpRTCP (payload : List Nat)
  deriving DecidableEq

/-- The observable steps a queued write task performs, in program order:
the atomic add to `bytesSent`, then the network send. -/
inductive WriteStep where
  | addBytesSent (n : Nat)
  | netWrite (w : NetWrite)
  deriving DecidableEq

/-- `func (sm *serverSessionMedia) writePacketRTPInQueueUDP(payload []byte)`:
executed by the queue worker; increments `bytesSent` by the payload length,
then sends via the shared UDP RTP listener. -/
def writePacketRTPInQueueUDP (ss : ServerSession) (payload : List Nat) :
    ServerSession × List WriteStep :=
  ({ ss with bytesSent := ss.bytesSent + payload.length },
   [WriteStep.addBytesSent payload.length, WriteStep.netWrite (NetWrite.udpRTP payload)])

/-- `func (sm *serverSessionMedia) writePacketRTCPInQueueUDP(payload []byte)`. -/
def writePacketRTCPInQueueUDP (ss : ServerSession) (payload : List Nat) :
    ServerSession × List WriteStep :=
  ({ ss with bytesSent := ss.bytesSent + payload.length },
   [WriteStep.addBytesSent payload.length, WriteStep.netWrite (NetWrite.udpRTCP payload)])

/-- Execution of one queued task by the queue worker (UDP transport). -/
def runTaskUDP (ss : ServerSession) : QueuedTask → ServerSession × List WriteStep
  | QueuedTask.rtpTask p => writePacketRTPInQueueUDP ss p
  | QueuedTask.rtcpTask p => writePacketRTCPInQueueUDP ss p

/-- FIFO execution of the queued tasks by the single queue worker. -/
def drainWriterUDP (ss : ServerSession) : List QueuedTask → ServerSession × List WriteStep
  | [] => (ss, [])
  | t :: rest =>
    let r1 := runTaskUDP ss t
    let r2 := drainWriterUDP r1.1 rest
    (r2.1, r1.2 ++ r2.2)

/-! ## Transport wiring (start/stop) -/

/-- `Transport` values of the surrounding package, as matched on by
`start()`/`stop()`. -/
inductive Transport where
  | udp
  | udpMulticast
  | tcp
  deriving DecidableEq

/-- The session state distinction `start()` branches on:
`ServerSessionStatePlay` versus the record states. -/
inductive SessionMode where
  | play
  | record
  deriving DecidableEq

/-- Which read callback a UDP listener registration installs. -/
inductive UDPCallback where
  | cbReadRTCPUDPPlay
  | cbReadRTPUDPRecord
  | cbReadRTCPUDPRecord
  deriving DecidableEq

/-- Which read callback a TCP channel-dispatcher entry installs. -/
inductive TCPCallback where
  | cbReadRTPTCPPlay
  | cbReadRTCPTCPPlay
  | cbReadRTPTCPRecord
  | cbReadRTCPTCPRecord
  deriving DecidableEq

/-- A shared UDP listener's client registry: callbacks keyed by
(client IP, local read port).  IPs are abstracted to `Nat`. -/
structure UDPListener where
  clients : List ((Nat × Nat) × UDPCallback)
  deriving DecidableEq

/-- `addClient(ip, port, cb)`: map assignment in the shared listener. -/
def UDPListener.addClient (l : UDPListener) (ip port : Nat) (cb : UDPCallback) : UDPListener :=
  { l with clients := ((ip, port), cb) :: l.clients }

/-- Registry deletion used by `removeClient`. -/
def removeClientAux : List ((Nat × Nat) × UDPCallback) → Nat × Nat →
    List ((Nat × Nat) × UDPCallback)
  | [], _ => []
  | (k, cb) :: rest, key =>
    if k = key then removeClientAux rest key else (k, cb) :: removeClientAux rest key

/-- `removeClient(ip, port)`: map deletion in the shared listener. -/
def UDPListener.removeClient (l : UDPListener) (ip port : Nat) : UDPListener :=
  { l with clients := removeClientAux l.clients (ip, port) }

/-- Registry lookup: the callback a delivered datagram would be dispatched
to, or `none` when no callback is registered for that source key. -/
def lookupClientAux : List ((Nat × Nat) × UDPCallback) → Nat × Nat → Option UDPCallback
  | [], _ => none
  | (k, cb) :: rest, key => if k = key then some cb else lookupClientAux rest key

/-- Dispatch lookup on a shared UDP listener. -/
def UDPListener.lookupClient (l : UDPListener) (ip port : Nat) : Option UDPCallback :=
  lookupClientAux l.clients (ip, port)

/-- Server-side shared state mutated by `start()`/`stop()`: the two shared
UDP listeners and the session's TCP channel-dispatcher map. -/
structure ServerState where
  udpRTPListener : UDPListener
  udpRTCPListener : UDPListener
  tcpCallbackByChannel : List (Nat × TCPCallback)
  deriving DecidableEq

/-- The immutable per-transport configuration `start()`/`stop()` read:
`sm.ss.author.ip()`, the negotiated local read ports, the TCP channel and the
server's `MaxPacketSize`. -/
structure MediaConfig where
  authorIP : Nat
  udpRTPReadPort : Nat
  udpRTCPReadPort : Nat
  tcpChannel : Nat
  maxPacketSize : Nat
  deriving DecidableEq

/-- Side effects of `start()`, in program order.  The two firewall-opening
emissions are `ss.WritePacketRTP(media, empty RTP packet)` and
`ss.WritePacketRTCP(media, empty receiver report)`; `ServerSession.WritePacketRTP`
and `ServerSession.WritePacketRTCP` live outside this file and are modelled
from the spec as transmissions toward the negotiated remote endpoints. -/
inductive StartAction where
  | formatStart (payloadType : Nat)
  | emitEmptyRTPPacket
  | emitEmptyRTCPReceiverReport
  | registerRTPListener (ip port : Nat)
  | registerRTCPListener (ip port : Nat)
  | setTCPCallback (channel : Nat) (cb : TCPCallback)
  | allocTCPBuffer (size : Nat)
  deriving DecidableEq

/-- Side effects of `stop()`: stopping a per-format component. -/
inductive StopAction where
  | formatStop (payloadType : Nat)
  deriving DecidableEq

/-- `func (sm *serverSessionMedia) start()`: start every per-format
component, then wire the transport selected at setup. -/
def start (cfg : MediaConfig) (transport : Transport) (mode : SessionMode)
    (sm : serverSessionMedia) (srv : ServerState) : ServerState × List StartAction :=
  let formatActions := sm.formats.map (fun e => StartAction.formatStart e.2.payloadType)
  match transport with
  | Transport.udp =>
    if mode = SessionMode.play then
      let rtcpL :=
        srv.udpRTCPListener.addClient cfg.authorIP cfg.udpRTCPReadPort
          UDPCallback.cbReadRTCPUDPPlay
      ({ srv with udpRTCPListener := rtcpL },
       formatActions ++ [StartAction.registerRTCPListener cfg.authorIP cfg.udpRTCPReadPort])
    else
      let rtpL :=
        srv.udpRTPListener.addClient cfg.authorIP cfg.udpRTPReadPort
          UDPCallback.cbReadRTPUDPRecord
      let rtcpL :=
        srv.udpRTCPListener.addClient cfg.authorIP cfg.udpRTCPReadPort
          UDPCallback.cbReadRTCPUDPRecord
      ({ srv with udpRTPListener := rtpL, udpRTCPListener := rtcpL },
       formatActions ++
         [StartAction.emitEmptyRTPPacket, StartAction.emitEmptyRTCPReceiverReport,
          StartAction.registerRTPListener cfg.authorIP cfg.udpRTPReadPort,
          StartAction.registerRTCPListener cfg.authorIP cfg.udpRTCPReadPort])
  | Transport.udpMulticast => (srv, formatActions)
  | Transport.tcp =>
    let rtpCb := if mode = SessionMode.play then TCPCallback.cbReadRTPTCPPlay
                 else TCPCallback.cbReadRTPTCPRecord
    let rtcpCb := if mode = SessionMode.play then TCPCallback.cbReadRTCPTCPPlay
                  else TCPCallback.cbReadRTCPTCPRecord
    let chans := (cfg.tcpChannel + 1, rtcpCb) :: (cfg.tcpChannel, rtpCb) :: srv.tcpCallbackByChannel
    ({ srv with tcpCallbackByChannel := chans },
     formatActions ++
       [StartAction.setTCPCallback cfg.tcpChannel rtpCb,
        StartAction.setTCPCallback (cfg.tcpChannel + 1) rtcpCb,
        StartAction.allocTCPBuffer (cfg.maxPacketSize + 4)])

/-- `func (sm *serverSessionMedia) stop()`: deregister from the shared UDP
listeners (unicast UDP only), then stop every per-format component. -/
def stop (cfg : MediaConfig) (transport : Transport) (sm : serverSessionMedia)
    (srv : ServerState) : ServerState × List StopAction :=
  let rtpL := srv.udpRTPListener.removeClient cfg.authorIP cfg.udpRTPReadPort
  let rtcpL := srv.udpRTCPListener.removeClient cfg.authorIP cfg.udpRTCPReadPort
  let srv1 :=
    if transport = Transport.udp then
      { srv with udpRTPListener := rtpL, udpRTCPListener := rtcpL }
    else srv
  (srv1, sm.formats.map (fun e => StopAction.formatStop e.2.payloadType))

/-! ## Derived observations used by the claims -/

/-- Whether an event is an invocation of the user callback `onPacketRTCP`. -/
def isOnPacketRTCPEvent : Event → Bool
  | Event.onPacketRTCP _ => true
  | _ => false

/-- Whether an event is a `ProcessSenderReport` feed. -/
def isProcessSenderReportEvent : Event → Bool
  | Event.processSenderReport _ _ _ => true
  | _ => false

/-- Number of `onPacketRTCP` invocations recorded in an event trace. -/
def countOnPacketRTCP (es : List Event) : Nat :=
  (es.filter isOnPacketRTCPEvent).length

/-- Number of `ProcessSenderReport` feeds recorded in an event trace. -/
def countProcessSenderReport (es : List Event) : Nat :=
  (es.filter isProcessSenderReportEvent).length

/-- Whether a decoded RTCP packet is a Sender Report whose SSRC is matched by
some per-format component of this transport. -/
def isMatchedSenderReport (sm : serverSessionMedia) : RTCPPacket → Bool
  | RTCPPacket.senderReport ssrc => (findFormatWithSSRC sm ssrc).isSome
  | _ => false

/-- Whether a start action is one of the two firewall-opening emissions or a
listener registration (the actions claim C7 orders). -/
def isEmitOrRegister : StartAction → Bool
  | StartAction.emitEmptyRTPPacket => true
  | StartAction.emitEmptyRTCPReceiverReport => true
  | StartAction.registerRTPListener _ _ => true
  | StartAction.registerRTCPListener _ _ => true
  | _ => false

/-- Payload types of the per-format components started by a `start()` run. -/
def startedFormatTypes : List StartAction → List Nat
  | [] => []
  | StartAction.formatStart pt :: rest => pt :: startedFormatTypes rest
  | _ :: rest => startedFormatTypes rest

/-- Payload types of the per-format components stopped by a `stop()` run. -/
def stoppedFormatTypes : List StopAction → List Nat
  | [] => []
  | StopAction.formatStop pt :: rest => pt :: stoppedFormatTypes rest

/-- One TCP interleaved frame delivered through the channel dispatcher,
tagged with the callback variant the dispatcher routes it to. -/
def deliverTCPFrame (env : Env) (sm : serverSessionMedia) (ss : ServerSession) :
    TCPCallback → List Nat → ServerSession × List Event
  | TCPCallback.cbReadRTPTCPPlay, p => readRTPTCPPlay env sm ss p
  | TCPCallback.cbReadRTCPTCPPlay, p => readRTCPTCPPlay env sm ss p
  | TCPCallback.cbReadRTPTCPRecord, p => readRTPTCPRecord env sm ss p
  | TCPCallback.cbReadRTCPTCPRecord, p => readRTCPTCPRecord env sm ss p

/-- Session state after a sequence of TCP frame deliveries. -/
def deliverTCPFrames (env : Env) (sm : serverSessionMedia) (ss : ServerSession) :
    List (TCPCallback × List Nat) → ServerSession
  | [] => ss
  | (k, p) :: rest => deliverTCPFrames env sm (deliverTCPFrame env sm ss k p).1 rest

/-! ## Helper lemmas -/

theorem countOnPacketRTCP_append (a b : List Event) :
    countOnPacketRTCP (a ++ b) = countOnPacketRTCP a + countOnPacketRTCP b := by
  simp [countOnPacketRTCP, List.filter_append]

theorem countProcessSenderReport_append (a b : List Event) :
    countProcessSenderReport (a ++ b) =
      countProcessSenderReport a + countProcessSenderReport b := by
  simp [countProcessSenderReport, List.filter_append]

theorem countOnPacketRTCP_map (pkts : List RTCPPacket) :
    countOnPacketRTCP (pkts.map Event.onPacketRTCP) = pkts.length := by
  induction pkts with
  | nil => rfl
  | cons p rest ih => simp [countOnPacketRTCP, isOnPacketRTCPEvent] at ih ⊢; omega

theorem countProcessSenderReport_map (pkts : List RTCPPacket) :
    countProcessSenderReport (pkts.map Event.onPacketRTCP) = 0 := by
  induction pkts with
  | nil => rfl
  | cons p rest ih =>
    simp [countProcessSenderReport, isProcessSenderReportEvent] at ih ⊢

theorem countOnPacketRTCP_packetEvents (sm : serverSessionMedia) (now : Int)
    (pkt : RTCPPacket) :
    countOnPacketRTCP (rtcpRecordPacketEvents sm now pkt) = 1 := by
  cases pkt with
  | senderReport ssrc =>
    cases h : findFormatWithSSRC sm ssrc <;>
      simp [rtcpRecordPacketEvents, h, countOnPacketRTCP, isOnPacketRTCPEvent]
  | receiverReport =>
    simp [rtcpRecordPacketEvents, countOnPacketRTCP, isOnPacketRTCPEvent]
  | other tag =>
    simp [rtcpRecordPacketEvents, countOnPacketRTCP, isOnPacketRTCPEvent]

theorem countProcessSenderReport_packetEvents (sm : serverSessionMedia) (now : Int)
    (pkt : RTCPPacket) :
    countProcessSenderReport (rtcpRecordPacketEvents sm now pkt) =
      if isMatchedSenderReport sm pkt then 1 else 0 := by
  cases pkt with
  | senderReport ssrc =>
    cases h : findFormatWithSSRC sm ssrc <;>
      simp [rtcpRecordPacketEvents, h, countProcessSenderReport,
        isProcessSenderReportEvent, isMatchedSenderReport]
  | receiverReport =>
    simp [rtcpRecordPacketEvents, countProcessSenderReport,
      isProcessSenderReportEvent, isMatchedSenderReport]
  | other tag =>
    simp [rtcpRecordPacketEvents, countProcessSenderReport,
      isProcessSenderReportEvent, isMatchedSenderReport]

theorem countOnPacketRTCP_loop (sm : serverSessionMedia) (now : Int)
    (pkts : List RTCPPacket) :
    countOnPacketRTCP (rtcpRecordLoop sm now pkts) = pkts.length := by
  induction pkts with
  | nil => rfl
  | cons p rest ih =>
    rw [rtcpRecordLoop, countOnPacketRTCP_append, countOnPacketRTCP_packetEvents, ih]
    simp [Nat.add_comm]

theorem countProcessSenderReport_loop (sm : serverSessionMedia) (now : Int)
    (pkts : List RTCPPacket) :
    countProcessSenderReport (rtcpRecordLoop sm now pkts) =
      (pkts.filter (isMatchedSenderReport sm)).length := by
  induction pkts with
  | nil => rfl
  | cons p rest ih =>
    rw [rtcpRecordLoop, countProcessSenderReport_append,
      countProcessSenderReport_packetEvents, ih]
    cases hp : isMatchedSenderReport sm p <;> simp [List.filter_cons, hp, Nat.add_comm]

theorem processSenderReport_mem_loop (sm : serverSessionMedia) (now : Int)
    (pkts : List RTCPPacket) (ssrc : Nat) (f : ServerSessionFormat)
    (hm : RTCPPacket.senderReport ssrc ∈ pkts)
    (hf : findFormatWithSSRC sm ssrc = some f) :
    Event.processSenderReport f ssrc now ∈ rtcpRecordLoop sm now pkts := by
  induction pkts with
  | nil => cases hm
  | cons p rest ih =>
    rw [rtcpRecordLoop]
    rcases List.mem_cons.mp hm with h | h
    · subst h
      exact List.mem_append_left _ (by simp [rtcpRecordPacketEvents, hf])
    · exact List.mem_append_right _ (ih h)

theorem decodeError_not_mem_loop (sm : serverSessionMedia) (now : Int)
    (pkts : List RTCPPacket) (e : DecodeError) :
    Event.decodeError e ∉ rtcpRecordLoop sm now pkts := by
  induction pkts with
  | nil => simp [rtcpRecordLoop]
  | cons p rest ih =>
    rw [rtcpRecordLoop]
    intro hmem
    rcases List.mem_append.mp hmem with hh | hh
    · cases p with
      | senderReport ssrc =>
        cases hff : findFormatWithSSRC sm ssrc <;>
          simp [rtcpRecordPacketEvents, hff] at hh
      | receiverReport => simp [rtcpRecordPacketEvents] at hh
      | other tag => simp [rtcpRecordPacketEvents] at hh
    · exact ih hh

theorem readRTCPUDPPlay_events (env : Env) (sm : serverSessionMedia) (ss : ServerSession)
    (payload : List Nat) (pkts : List RTCPPacket)
    (hun : env.rtcpUnmarshal payload = some pkts)
    (hlen : payload.length ≠ env.udpMaxPayloadSize + 1) :
    (readRTCPUDPPlay env sm ss payload).2 = pkts.map Event.onPacketRTCP := by
  simp [readRTCPUDPPlay, hun, hlen]

theorem readRTCPUDPRecord_events (env : Env) (sm : serverSessionMedia) (ss : ServerSession)
    (payload : List Nat) (pkts : List RTCPPacket)
    (hun : env.rtcpUnmarshal payload = some pkts)
    (hlen : payload.length ≠ env.udpMaxPayloadSize + 1) :
    (readRTCPUDPRecord env sm ss payload).2 = rtcpRecordLoop sm env.timeNow pkts := by
  simp [readRTCPUDPRecord, hun, hlen]

theorem readRTCPTCPPlay_events (env : Env) (sm : serverSessionMedia) (ss : ServerSession)
    (payload : List Nat) (pkts : List RTCPPacket)
    (hun : env.rtcpUnmarshal payload = some pkts)
    (hlen : ¬ payload.length > env.udpMaxPayloadSize) :
    (readRTCPTCPPlay env sm ss payload).2 = pkts.map Event.onPacketRTCP := by
  simp [readRTCPTCPPlay, hun, hlen]

theorem readRTCPTCPRecord_events (env : Env) (sm : serverSessionMedia) (ss : ServerSession)
    (payload : List Nat) (pkts : List RTCPPacket)
    (hun : env.rtcpUnmarshal payload = some pkts)
    (hlen : ¬ payload.length > env.udpMaxPayloadSize) :
    (readRTCPTCPRecord env sm ss payload).2 = rtcpRecordLoop sm env.timeNow pkts := by
  simp [readRTCPTCPRecord, hun, hlen]

theorem filter_emitOrRegister_formatStarts (fs : List (Nat × ServerSessionFormat)) :
    (fs.map (fun e => StartAction.formatStart e.2.payloadType)).filter isEmitOrRegister = [] := by
  induction fs with
  | nil => rfl
  | cons a rest ih => simp [isEmitOrRegister, ih]

theorem lookupClientAux_removeClientAux (l : List ((Nat × Nat) × UDPCallback))
    (key : Nat × Nat) :
    lookupClientAux (removeClientAux l key) key = none := by
  induction l with
  | nil => rfl
  | cons e rest ih =>
    obtain ⟨k, cb⟩ := e
    by_cases hk : k = key
    · simp [removeClientAux, hk, ih]
    · simp [removeClientAux, lookupClientAux, hk, ih]

theorem lookupClient_removeClient (l : UDPListener) (ip port : Nat) :
    (l.removeClient ip port).lookupClient ip port = none :=
  lookupClientAux_removeClientAux l.clients (ip, port)

theorem startedFormatTypes_append (a b : List StartAction) :
    startedFormatTypes (a ++ b) = startedFormatTypes a ++ startedFormatTypes b := by
  induction a with
  | nil => rfl
  | cons x rest ih => cases x <;> simp [startedFormatTypes, ih]

theorem startedFormatTypes_formatStarts (fs : List (Nat × ServerSessionFormat)) :
    startedFormatTypes (fs.map (fun e => StartAction.formatStart e.2.payloadType)) =
      fs.map (fun e => e.2.payloadType) := by
  induction fs with
  | nil => rfl
  | cons a rest ih => simp [startedFormatTypes, ih]

theorem stoppedFormatTypes_formatStops (fs : List (Nat × ServerSessionFormat)) :
    stoppedFormatTypes (fs.map (fun e => StopAction.formatStop e.2.payloadType)) =
      fs.map (fun e => e.2.payloadType) := by
  induction fs with
  | nil => rfl
  | cons a rest ih => simp [stoppedFormatTypes, ih]

theorem deliverTCPFrame_state (env : Env) (sm : serverSessionMedia) (ss : ServerSession)
    (k : TCPCallback) (p : List Nat) : (deliverTCPFrame env sm ss k p).1 = ss := by
  cases k with
  | cbReadRTPTCPPlay => rfl
  | cbReadRTCPTCPPlay =>
    show (readRTCPTCPPlay env sm ss p).1 = ss
    unfold readRTCPTCPPlay
    split
    · rfl
    · cases hu : env.rtcpUnmarshal p <;> simp [hu]
  | cbReadRTPTCPRecord =>
    show (readRTPTCPRecord env sm ss p).1 = ss
    unfold readRTPTCPRecord
    cases hu : env.rtpUnmarshal p with
    | none => rfl
    | some pkt =>
      simp only
      cases hl : lookupFormat sm.formats pkt.header.payloadType <;> simp [hl]
  | cbReadRTCPTCPRecord =>
    show (readRTCPTCPRecord env sm ss p).1 = ss
    unfold readRTCPTCPRecord
    split
    · rfl
    · cases hu : env.rtcpUnmarshal p <;> simp [hu]

/-! ## Claims -/

/-- Claim C5: a UDP datagram (RTP or RTCP path) of length exactly
`maximumUDPPayloadSize + 1` yields a too-big decode error and is dropped
without any unmarshal attempt (the handler result does not depend on the
unmarshaller at all), and this error is distinct from the malformed-packet
(unmarshal failure) error. -/
theorem claim_C5 (env : Env) (sm : serverSessionMedia) (ss : ServerSession)
    (payload : List Nat)
    (h : payload.length = env.udpMaxPayloadSize + 1) :
    (readRTPUDPRecord env sm ss payload).2 =
      [Event.decodeError DecodeError.rtpPacketTooBigUDP] ∧
    (readRTCPUDPRecord env sm ss payload).2 =
      [Event.decodeError DecodeError.rtcpPacketTooBigUDP] ∧
    (readRTCPUDPPlay env sm ss payload).2 =
      [Event.decodeError DecodeError.rtcpPacketTooBigUDP] ∧
    (∀ f g, readRTPUDPRecord { env with rtpUnmarshal := f } sm ss payload =
            readRTPUDPRecord { env with rtpUnmarshal := g } sm ss payload) ∧
    (∀ f g, readRTCPUDPRecord { env with rtcpUnmarshal := f } sm ss payload =
            readRTCPUDPRecord { env with rtcpUnmarshal := g } sm ss payload) ∧
    (∀ f g, readRTCPUDPPlay { env with rtcpUnmarshal := f } sm ss payload =
            readRTCPUDPPlay { env with rtcpUnmarshal := g } sm ss payload) ∧
    DecodeError.rtpPacketTooBigUDP ≠ DecodeError.rtpUnmarshalError ∧
    DecodeError.rtcpPacketTooBigUDP ≠ DecodeError.rtcpUnmarshalError := by
  refine ⟨?_, ?_, ?_, ?_, ?_, ?_, by simp, by simp⟩ <;>
    simp [readRTPUDPRecord, readRTCPUDPRecord, readRTCPUDPPlay, h]

/-- Witness for C5 at a concrete input: ceiling 2, datagram of length 3. -/
theorem claim_C5_witness :
    (readRTPUDPRecord ⟨2, fun _ => none, fun _ => none, 0⟩ ⟨[]⟩ ⟨0, 0, 0⟩ [5, 6, 7]).2 =
      [Event.decodeError DecodeError.rtpPacketTooBigUDP] :=
  (claim_C5 ⟨2, fun _ => none, fun _ => none, 0⟩ ⟨[]⟩ ⟨0, 0, 0⟩ [5, 6, 7] rfl).1

/-- Claim C6: a TCP RTCP frame (Play or Record) of length exactly
`maximumUDPPayloadSize` is accepted and proceeds to unmarshal (an unmarshal
failure is observed as such, and a successful unmarshal is processed), while
a frame of greater length is rejected with a packet-too-big decode error
carrying the actual length and the UDP size ceiling, without any unmarshal
attempt. -/
theorem claim_C6 (env : Env) (sm : serverSessionMedia) (ss : ServerSession)
    (pA pR : List Nat)
    (hA : pA.length = env.udpMaxPayloadSize)
    (hR : pR.length > env.udpMaxPayloadSize) :
    (∀ l m, Event.decodeError (DecodeError.rtcpPacketTooBig l m) ∉
        (readRTCPTCPPlay env sm ss pA).2) ∧
    (∀ l m, Event.decodeError (DecodeError.rtcpPacketTooBig l m) ∉
        (readRTCPTCPRecord env sm ss pA).2) ∧
    (env.rtcpUnmarshal pA = none →
      (readRTCPTCPPlay env sm ss pA).2 = [Event.decodeError DecodeError.rtcpUnmarshalError] ∧
      (readRTCPTCPRecord env sm ss pA).2 = [Event.decodeError DecodeError.rtcpUnmarshalError]) ∧
    (∀ pkts, env.rtcpUnmarshal pA = some pkts →
      countOnPacketRTCP (readRTCPTCPPlay env sm ss pA).2 = pkts.length ∧
      countOnPacketRTCP (readRTCPTCPRecord env sm ss pA).2 = pkts.length) ∧
    (readRTCPTCPPlay env sm ss pR).2 =
      [Event.decodeError (DecodeError.rtcpPacketTooBig pR.length env.udpMaxPayloadSize)] ∧
    (readRTCPTCPRecord env sm ss pR).2 =
      [Event.decodeError (DecodeError.rtcpPacketTooBig pR.length env.udpMaxPayloadSize)] ∧
    (∀ f g, readRTCPTCPPlay { env with rtcpUnmarshal := f } sm ss pR =
            readRTCPTCPPlay { env with rtcpUnmarshal := g } sm ss pR) ∧
    (∀ f g, readRTCPTCPRecord { env with rtcpUnmarshal := f } sm ss pR =
            readRTCPTCPRecord { env with rtcpUnmarshal := g } sm ss pR) := by
  have hAle : ¬ pA.length > env.udpMaxPayloadSize := by omega
  refine ⟨?_, ?_, ?_, ?_, ?_, ?_, ?_, ?_⟩
  · intro l m
    cases hun : env.rtcpUnmarshal pA with
    | none => simp [readRTCPTCPPlay, hun, hAle]
    | some pkts =>
      rw [readRTCPTCPPlay_events env sm ss pA pkts hun hAle]
      simp [List.mem_map]
  · intro l m
    cases hun : env.rtcpUnmarshal pA with
    | none => simp [readRTCPTCPRecord, hun, hAle]
    | some pkts =>
      rw [readRTCPTCPRecord_events env sm ss pA pkts hun hAle]
      exact decodeError_not_mem_loop sm env.timeNow pkts _
  · intro hun
    constructor <;> simp [readRTCPTCPPlay, readRTCPTCPRecord, hun, hAle]
  · intro pkts hun
    rw [readRTCPTCPPlay_events env sm ss pA pkts hun hAle,
      readRTCPTCPRecord_events env sm ss pA pkts hun hAle,
      countOnPacketRTCP_map, countOnPacketRTCP_loop]
    exact ⟨rfl, rfl⟩
  · simp [readRTCPTCPPlay, hR]
  · simp [readRTCPTCPRecord, hR]
  · intro f g
    simp [readRTCPTCPPlay, hR]
  · intro f g
    simp [readRTCPTCPRecord, hR]

/-- Witness for C6 at a concrete input: ceiling 2, frames of length 2 and 3. -/
theorem claim_C6_witness :
    (readRTCPTCPPlay ⟨2, fun _ => none, fun _ => none, 0⟩ ⟨[]⟩ ⟨0, 0, 0⟩ [5, 6, 7]).2 =
      [Event.decodeError (DecodeError.rtcpPacketTooBig 3 2)] :=
  (claim_C6 ⟨2, fun _ => none, fun _ => none, 0⟩ ⟨[]⟩ ⟨0, 0, 0⟩ [4, 5] [5, 6, 7]
    rfl (by decide)).2.2.2.2.1

/-- Claim C9: when the bounded write queue is full (`push` returns false),
`writeRTP` and `writeRTCP` return the queue-full error and leave every piece
of observable state unchanged; in particular the outbound byte counter is
not incremented for the rejected payload. -/
theorem claim_C9 (wst : WriteState) (payload : List Nat)
    (h : ¬ wst.writer.tasks.length < wst.writer.capacity) :
    (writePacketRTP wst payload).2 = some WriteError.serverWriteQueueFull ∧
    (writePacketRTP wst payload).1 = wst ∧
    (writePacketRTP wst payload).1.ss.bytesSent = wst.ss.bytesSent ∧
    (writePacketRTCP wst payload).2 = some WriteError.serverWriteQueueFull ∧
    (writePacketRTCP wst payload).1 = wst ∧
    (writePacketRTCP wst payload).1.ss.bytesSent = wst.ss.bytesSent := by
  refine ⟨?_, ?_, ?_, ?_, ?_, ?_⟩ <;>
    simp [writePacketRTP, writePacketRTCP, Writer.push, h]

/-- Witness for C9 at a concrete input: a queue of capacity 0 is full. -/
theorem claim_C9_witness :
    (writePacketRTP ⟨⟨0, 0, 0⟩, ⟨0, []⟩⟩ [1, 2, 3]).2 =
      some WriteError.serverWriteQueueFull :=
  (claim_C9 ⟨⟨0, 0, 0⟩, ⟨0, []⟩⟩ [1, 2, 3] (by decide)).1

/-- Counterexample to claim C1: with an empty queue of capacity 8 and the
3-byte payload `[1, 2, 3]`, `writeRTP` (and `writeRTCP`) accepts the payload
(`push` returns true, no error), yet the outbound byte counter is NOT
incremented at acceptance: it still reads 0, not 3.  The increment sits
inside the queued task, which has not run yet. -/
theorem claim_C1_counterexample :
    (writePacketRTP ⟨⟨0, 0, 0⟩, ⟨8, []⟩⟩ [1, 2, 3]).2 = none ∧
    ¬ (writePacketRTP ⟨⟨0, 0, 0⟩, ⟨8, []⟩⟩ [1, 2, 3]).1.ss.bytesSent =
        0 + [1, 2, 3].length ∧
    (writePacketRTCP ⟨⟨0, 0, 0⟩, ⟨8, []⟩⟩ [1, 2, 3]).2 = none ∧
    ¬ (writePacketRTCP ⟨⟨0, 0, 0⟩, ⟨8, []⟩⟩ [1, 2, 3]).1.ss.bytesSent =
        0 + [1, 2, 3].length := by
  decide

/-- Claim C1 as amended: for every payload accepted by `writeRTP` or
`writeRTCP` (`push` returns true), acceptance alone leaves the outbound byte
counter unchanged and appends the task to the queue; the counter is
incremented by the payload length only when the queue worker executes the
queued task, and within that task the increment step precedes the network
send. -/
theorem claim_C1_amended (wst : WriteState) (payload : List Nat)
    (h : wst.writer.tasks.length < wst.writer.capacity) :
    (writePacketRTP wst payload).2 = none ∧
    (writePacketRTP wst payload).1.ss = wst.ss ∧
    (writePacketRTP wst payload).1.writer.tasks =
      wst.writer.tasks ++ [QueuedTask.rtpTask payload] ∧
    (writePacketRTCP wst payload).2 = none ∧
    (writePacketRTCP wst payload).1.ss = wst.ss ∧
    (writePacketRTCP wst payload).1.writer.tasks =
      wst.writer.tasks ++ [QueuedTask.rtcpTask payload] ∧
    (runTaskUDP wst.ss (QueuedTask.rtpTask payload)).1.bytesSent =
      wst.ss.bytesSent + payload.length ∧
    (runTaskUDP wst.ss (QueuedTask.rtpTask payload)).2 =
      [WriteStep.addBytesSent payload.length,
       WriteStep.netWrite (NetWrite.udpRTP payload)] ∧
    (runTaskUDP wst.ss (QueuedTask.rtcpTask payload)).1.bytesSent =
      wst.ss.bytesSent + payload.length ∧
    (runTaskUDP wst.ss (QueuedTask.rtcpTask payload)).2 =
      [WriteStep.addBytesSent payload.length,
       WriteStep.netWrite (NetWrite.udpRTCP payload)] := by
  refine ⟨?_, ?_, ?_, ?_, ?_, ?_, rfl, rfl, rfl, rfl⟩ <;>
    simp [writePacketRTP, writePacketRTCP, Writer.push, runTaskUDP,
      writePacketRTPInQueueUDP, writePacketRTCPInQueueUDP, h]

/-- Witness for the amended C1 at a concrete input. -/
theorem claim_C1_amended_witness :
    (writePacketRTP ⟨⟨0, 0, 0⟩, ⟨8, []⟩⟩ [1, 2, 3]).1.ss = ⟨0, 0, 0⟩ ∧
    (runTaskUDP ⟨0, 0, 0⟩ (QueuedTask.rtpTask [1, 2, 3])).1.bytesSent = 0 + 3 :=
  ⟨(claim_C1_amended ⟨⟨0, 0, 0⟩, ⟨8, []⟩⟩ [1, 2, 3] (by decide)).2.1,
   (claim_C1_amended ⟨⟨0, 0, 0⟩, ⟨8, []⟩⟩ [1, 2, 3] (by decide)).2.2.2.2.2.2.1⟩

/-- Counterexample to claim C2: in the inbound UDP RTP Record path, a
datagram that unmarshals successfully (to a packet of payload type 96) but
whose payload type is absent from `formats` does NOT update the
last-UDP-activity timestamp: with `timeNow = 42` and a prior timestamp of 0,
the handler signals the unknown-payload-type error and leaves the timestamp
at 0.  The source performs the payload-type lookup before storing the
timestamp, not after. -/
theorem claim_C2_counterexample :
    (⟨10, fun _ => some ⟨⟨2, 96⟩, []⟩, fun _ => none, 42⟩ : Env).rtpUnmarshal [0] =
      some ⟨⟨2, 96⟩, []⟩ ∧
    (readRTPUDPRecord ⟨10, fun _ => some ⟨⟨2, 96⟩, []⟩, fun _ => none, 42⟩
        ⟨[]⟩ ⟨0, 0, 0⟩ [0]).2 =
      [Event.decodeError (DecodeError.rtpPacketUnknownPayloadType 96)] ∧
    (readRTPUDPRecord ⟨10, fun _ => some ⟨⟨2, 96⟩, []⟩, fun _ => none, 42⟩
        ⟨[]⟩ ⟨0, 0, 0⟩ [0]).1.udpLastPacketTime = 0 ∧
    (⟨10, fun _ => some ⟨⟨2, 96⟩, []⟩, fun _ => none, 42⟩ : Env).timeNow = 42 ∧
    (0 : Int) ≠ 42 := by
  refine ⟨rfl, rfl, rfl, rfl, by decide⟩

/-- Claim C2 as amended: in the inbound UDP RTP Record path, for a datagram
that unmarshals successfully, the last-UDP-activity timestamp is recorded
only after the per-format payload-type lookup succeeds; a datagram whose
payload type is absent from `formats` signals the unknown-payload-type error
and leaves the timestamp unchanged, while a datagram whose type is present
updates the timestamp to the current time and passes that same time to the
per-format dispatch. -/
theorem claim_C2_amended (env : Env) (sm : serverSessionMedia) (ss : ServerSession)
    (payload : List Nat) (pkt : RTPPacket)
    (hun : env.rtpUnmarshal payload = some pkt)
    (hlen : payload.length ≠ env.udpMaxPayloadSize + 1) :
    (lookupFormat sm.formats pkt.header.payloadType = none →
      (readRTPUDPRecord env sm ss payload).1.udpLastPacketTime = ss.udpLastPacketTime ∧
      (readRTPUDPRecord env sm ss payload).2 =
        [Event.decodeError (DecodeError.rtpPacketUnknownPayloadType pkt.header.payloadType)]) ∧
    (∀ f, lookupFormat sm.formats pkt.header.payloadType = some f →
      (readRTPUDPRecord env sm ss payload).1.udpLastPacketTime = env.timeNow ∧
      (readRTPUDPRecord env sm ss payload).2 = [Event.readRTPUDP f pkt env.timeNow]) := by
  constructor
  · intro hf
    constructor <;> simp [readRTPUDPRecord, hun, hlen, hf]
  · intro f hf
    constructor <;> simp [readRTPUDPRecord, hun, hlen, hf]

/-- Witness for the amended C2 at a concrete input: payload type 96 absent
from an empty format map, timestamp 7 left unchanged. -/
theorem claim_C2_amended_witness :
    (readRTPUDPRecord ⟨10, fun _ => some ⟨⟨2, 96⟩, []⟩, fun _ => none, 42⟩
        ⟨[]⟩ ⟨0, 0, 7⟩ [0]).1.udpLastPacketTime = 7 :=
  ((claim_C2_amended ⟨10, fun _ => some ⟨⟨2, 96⟩, []⟩, fun _ => none, 42⟩
      ⟨[]⟩ ⟨0, 0, 7⟩ [0] ⟨⟨2, 96⟩, []⟩ rfl (by decide)).1 rfl).1

/-- Claim C3: in Record mode, a well-formed RTP packet whose payload type is
present in `formats` is handed (via UDP or TCP ingestion) to exactly the
per-format component mapped to that type and to nothing else (the event
trace is the single dispatch to the looked-up component); a well-formed RTP
packet whose payload type is absent yields exactly one unknown-payload-type
decode error carrying the offending type and no per-format dispatch. -/
theorem claim_C3 (env : Env) (sm : serverSessionMedia) (ss : ServerSession)
    (pP pA : List Nat) (pktP pktA : RTPPacket) (fP : ServerSessionFormat)
    (hunP : env.rtpUnmarshal pP = some pktP)
    (hlenP : pP.length ≠ env.udpMaxPayloadSize + 1)
    (hfP : lookupFormat sm.formats pktP.header.payloadType = some fP)
    (hunA : env.rtpUnmarshal pA = some pktA)
    (hlenA : pA.length ≠ env.udpMaxPayloadSize + 1)
    (hfA : lookupFormat sm.formats pktA.header.payloadType = none) :
    (readRTPUDPRecord env sm ss pP).2 = [Event.readRTPUDP fP pktP env.timeNow] ∧
    (readRTPTCPRecord env sm ss pP).2 = [Event.readRTPTCP fP pktP] ∧
    (readRTPUDPRecord env sm ss pA).2 =
      [Event.decodeError (DecodeError.rtpPacketUnknownPayloadType pktA.header.payloadType)] ∧
    (readRTPTCPRecord env sm ss pA).2 =
      [Event.decodeError (DecodeError.rtpPacketUnknownPayloadType pktA.header.payloadType)] := by
  refine ⟨?_, ?_, ?_, ?_⟩ <;>
    simp [readRTPUDPRecord, readRTPTCPRecord, hunP, hlenP, hfP, hunA, hlenA, hfA]

/-- Witness for C3 at a concrete input: format map `{96 ↦ component}`, a
packet of type 96 (present) and one of type 97 (absent). -/
theorem claim_C3_witness :
    (readRTPUDPRecord ⟨10, fun p => some ⟨⟨2, p.headD 0⟩, []⟩, fun _ => none, 42⟩
        ⟨[(96, ⟨96, some 7⟩)]⟩ ⟨0, 0, 0⟩ [96]).2 =
      [Event.readRTPUDP ⟨96, some 7⟩ ⟨⟨2, 96⟩, []⟩ 42] ∧
    (readRTPTCPRecord ⟨10, fun p => some ⟨⟨2, p.headD 0⟩, []⟩, fun _ => none, 42⟩
        ⟨[(96, ⟨96, some 7⟩)]⟩ ⟨0, 0, 0⟩ [97]).2 =
      [Event.decodeError (DecodeError.rtpPacketUnknownPayloadType 97)] := by
  have h := claim_C3 ⟨10, fun p => some ⟨⟨2, p.headD 0⟩, []⟩, fun _ => none, 42⟩
    ⟨[(96, ⟨96, some 7⟩)]⟩ ⟨0, 0, 0⟩ [96] [97] ⟨⟨2, 96⟩, []⟩ ⟨⟨2, 97⟩, []⟩ ⟨96, some 7⟩
    rfl (by decide) rfl rfl (by decide) rfl
  exact ⟨h.1, h.2.2.2⟩

/-- Claim C4: in every RTCP read path (UDP/TCP × Play/Record), each decoded
RTCP packet triggers exactly one `onPacketRTCP` invocation whether or not
its SSRC matches a per-format component; in Record mode each decoded Sender
Report whose SSRC is reported by some per-format component additionally
triggers exactly one `processSenderReport` on that component (and only
matched Sender Reports do), while in Play mode no SSRC correlation is
performed at all. -/
theorem claim_C4 (env : Env) (sm : serverSessionMedia) (ss : ServerSession)
    (payload : List Nat) (pkts : List RTCPPacket)
    (hun : env.rtcpUnmarshal payload = some pkts)
    (hlen : payload.length ≤ env.udpMaxPayloadSize) :
    countOnPacketRTCP (readRTCPUDPPlay env sm ss payload).2 = pkts.length ∧
    countOnPacketRTCP (readRTCPUDPRecord env sm ss payload).2 = pkts.length ∧
    countOnPacketRTCP (readRTCPTCPPlay env sm ss payload).2 = pkts.length ∧
    countOnPacketRTCP (readRTCPTCPRecord env sm ss payload).2 = pkts.length ∧
    countProcessSenderReport (readRTCPUDPRecord env sm ss payload).2 =
      (pkts.filter (isMatchedSenderReport sm)).length ∧
    countProcessSenderReport (readRTCPTCPRecord env sm ss payload).2 =
      (pkts.filter (isMatchedSenderReport sm)).length ∧
    countProcessSenderReport (readRTCPUDPPlay env sm ss payload).2 = 0 ∧
    countProcessSenderReport (readRTCPTCPPlay env sm ss payload).2 = 0 ∧
    (∀ ssrc f, RTCPPacket.senderReport ssrc ∈ pkts →
      findFormatWithSSRC sm ssrc = some f →
      Event.processSenderReport f ssrc env.timeNow ∈ (readRTCPUDPRecord env sm ss payload).2 ∧
      Event.processSenderReport f ssrc env.timeNow ∈ (readRTCPTCPRecord env sm ss payload).2) := by
  have h1 : payload.length ≠ env.udpMaxPayloadSize + 1 := by omega
  have h2 : ¬ payload.length > env.udpMaxPayloadSize := by omega
  rw [readRTCPUDPPlay_events env sm ss payload pkts hun h1,
    readRTCPUDPRecord_events env sm ss payload pkts hun h1,
    readRTCPTCPPlay_events env sm ss payload pkts hun h2,
    readRTCPTCPRecord_events env sm ss payload pkts hun h2]
  refine ⟨countOnPacketRTCP_map pkts, countOnPacketRTCP_loop sm env.timeNow pkts,
    countOnPacketRTCP_map pkts, countOnPacketRTCP_loop sm env.timeNow pkts,
    countProcessSenderReport_loop sm env.timeNow pkts,
    countProcessSenderReport_loop sm env.timeNow pkts,
    countProcessSenderReport_map pkts, countProcessSenderReport_map pkts,
    fun ssrc f hm hf =>
      ⟨processSenderReport_mem_loop sm env.timeNow pkts ssrc f hm hf,
       processSenderReport_mem_loop sm env.timeNow pkts ssrc f hm hf⟩⟩

/-- Witness for C4 at a concrete input: two decoded packets, one Sender
Report matched by the component with sender SSRC 7 and one other packet. -/
theorem claim_C4_witness :
    countOnPacketRTCP (readRTCPUDPRecord
        ⟨10, fun _ => none, fun _ => some [RTCPPacket.senderReport 7, RTCPPacket.other 3], 42⟩
        ⟨[(96, ⟨96, some 7⟩)]⟩ ⟨0, 0, 0⟩ [0]).2 = 2 ∧
    countProcessSenderReport (readRTCPUDPRecord
        ⟨10, fun _ => none, fun _ => some [RTCPPacket.senderReport 7, RTCPPacket.other 3], 42⟩
        ⟨[(96, ⟨96, some 7⟩)]⟩ ⟨0, 0, 0⟩ [0]).2 = 1 ∧
    Event.processSenderReport ⟨96, some 7⟩ 7 42 ∈ (readRTCPUDPRecord
        ⟨10, fun _ => none, fun _ => some [RTCPPacket.senderReport 7, RTCPPacket.other 3], 42⟩
        ⟨[(96, ⟨96, some 7⟩)]⟩ ⟨0, 0, 0⟩ [0]).2 := by
  have h := claim_C4
    ⟨10, fun _ => none, fun _ => some [RTCPPacket.senderReport 7, RTCPPacket.other 3], 42⟩
    ⟨[(96, ⟨96, some 7⟩)]⟩ ⟨0, 0, 0⟩ [0]
    [RTCPPacket.senderReport 7, RTCPPacket.other 3] rfl (by decide)
  refine ⟨h.2.1, ?_, (h.2.2.2.2.2.2.2.2 7 ⟨96, some 7⟩ (by decide) rfl).1⟩
  rw [h.2.2.2.2.1]
  decide

/-- Claim C7: in Record mode over unicast UDP, `start()` emits exactly one
empty RTP packet and exactly one empty RTCP receiver-report toward the
negotiated remote endpoints, and both emissions occur before either inbound
listener registration: the subtrace of emissions and registrations is
exactly emit-RTP, emit-RTCP, register-RTP, register-RTCP.  Afterwards both
Record read callbacks are in effect on the shared listeners. -/
theorem claim_C7 (cfg : MediaConfig) (sm : serverSessionMedia) (srv : ServerState) :
    ((start cfg Transport.udp SessionMode.record sm srv).2.filter isEmitOrRegister) =
      [StartAction.emitEmptyRTPPacket, StartAction.emitEmptyRTCPReceiverReport,
       StartAction.registerRTPListener cfg.authorIP cfg.udpRTPReadPort,
       StartAction.registerRTCPListener cfg.authorIP cfg.udpRTCPReadPort] ∧
    (start cfg Transport.udp SessionMode.record sm srv).1.udpRTPListener.lookupClient
        cfg.authorIP cfg.udpRTPReadPort = some UDPCallback.cbReadRTPUDPRecord ∧
    (start cfg Transport.udp SessionMode.record sm srv).1.udpRTCPListener.lookupClient
        cfg.authorIP cfg.udpRTCPReadPort = some UDPCallback.cbReadRTCPUDPRecord := by
  refine ⟨?_, ?_, ?_⟩ <;>
    simp [start, List.filter_append, filter_emitOrRegister_formatStarts, isEmitOrRegister,
      UDPListener.addClient, UDPListener.lookupClient, lookupClientAux]

/-- Claim C8: for every transport and mode, running `stop()` after `start()`
leaves no registered UDP listener callback for this transport's RTP and RTCP
read ports (a datagram delivered afterwards reaches no callback of this
transport), and `stop()` stops exactly the per-format components `start()`
started, in the same order. -/
theorem claim_C8 (cfg : MediaConfig) (transport : Transport) (mode : SessionMode)
    (sm : serverSessionMedia) (srv : ServerState)
    (h1 : srv.udpRTPListener.lookupClient cfg.authorIP cfg.udpRTPReadPort = none)
    (h2 : srv.udpRTCPListener.lookupClient cfg.authorIP cfg.udpRTCPReadPort = none) :
    (stop cfg transport sm (start cfg transport mode sm srv).1).1.udpRTPListener.lookupClient
        cfg.authorIP cfg.udpRTPReadPort = none ∧
    (stop cfg transport sm (start cfg transport mode sm srv).1).1.udpRTCPListener.lookupClient
        cfg.authorIP cfg.udpRTCPReadPort = none ∧
    stoppedFormatTypes (stop cfg transport sm (start cfg transport mode sm srv).1).2 =
      startedFormatTypes (start cfg transport mode sm srv).2 := by
  refine ⟨?_, ?_, ?_⟩
  · cases transport <;>
      simp [stop, start, lookupClient_removeClient, h1]
  · cases transport <;>
      simp [stop, start, lookupClient_removeClient, h2]
  · cases transport <;> cases mode <;>
      simp [stop, start, startedFormatTypes_append, startedFormatTypes_formatStarts,
        stoppedFormatTypes_formatStops, startedFormatTypes]

/-- Witness for C8 at a concrete input: unicast UDP Record with one format
and initially empty registries. -/
theorem claim_C8_witness :
    (stop ⟨1, 2, 3, 4, 5⟩ Transport.udp ⟨[(96, ⟨96, none⟩)]⟩
        (start ⟨1, 2, 3, 4, 5⟩ Transport.udp SessionMode.record ⟨[(96, ⟨96, none⟩)]⟩
          ⟨⟨[]⟩, ⟨[]⟩, []⟩).1).1.udpRTPListener.lookupClient 1 2 = none :=
  (claim_C8 ⟨1, 2, 3, 4, 5⟩ Transport.udp SessionMode.record ⟨[(96, ⟨96, none⟩)]⟩
    ⟨⟨[]⟩, ⟨[]⟩, []⟩ rfl rfl).1

/-- Claim C10: no TCP read handler (RTP/RTCP × Play/Record) modifies the
session's inbound byte counter or the last-UDP-activity timestamp — indeed
each leaves the whole session-counter state untouched — so after any
sequence of TCP frame deliveries both fields equal their prior values. -/
theorem claim_C10 (env : Env) (sm : serverSessionMedia) (ss : ServerSession)
    (frames : List (TCPCallback × List Nat)) :
    (∀ k p, (deliverTCPFrame env sm ss k p).1 = ss) ∧
    (deliverTCPFrames env sm ss frames).bytesReceived = ss.bytesReceived ∧
    (deliverTCPFrames env sm ss frames).udpLastPacketTime = ss.udpLastPacketTime := by
  refine ⟨fun k p => deliverTCPFrame_state env sm ss k p, ?_⟩
  induction frames generalizing ss with
  | nil => exact ⟨rfl, rfl⟩
  | cons f rest ih =>
    obtain ⟨k, p⟩ := f
    rw [deliverTCPFrames, deliverTCPFrame_state]
    exact ih ss

end SessionMedia
